import Mathlib

/-
Shallow embedding of `browser_use/telemetry/service.py` (class ProductTelemetry).

External effects (filesystem operations, transport inserts, UUID generation,
environment variables) are modelled as explicit oracle values passed to each
call; a Python `try`-block body that can raise is modelled as a `Res`-valued
computation, and the surrounding `except` handler as the match on that value.
-/

namespace BrowserUse

/-- Outcome of a Python operation that may raise: `ok` is a normal return,
`error` carries the exception payload the handler observes. -/
inductive Res (ε : Type) (α : Type) where
  | ok (a : α)
  | error (e : ε)
  deriving DecidableEq, Repr

/-- Values stored in an event's `properties` dict. -/
inductive PValue where
  | bool (b : Bool)
  | int (n : Int)
  | str (s : String)
  deriving DecidableEq, Repr

/-- A Python dict with string keys, as an insertion-ordered association list. -/
abbrev Dict := List (String × PValue)

/-- Python dict lookup (keys are unique in real dicts; first match here). -/
def dictLookup : Dict → String → Option PValue
  | [], _ => none
  | (a, v) :: rest, k => if a = k then some v else dictLookup rest k

/-- Python dict assignment `d[k] = v`: overwrite in place if the key is
present (preserving its position), otherwise append at the end. -/
def dictInsert : Dict → String → PValue → Dict
  | [], k, v => [(k, v)]
  | (a, b) :: rest, k, v =>
    if a = k then (k, v) :: rest else (a, b) :: dictInsert rest k v

/-- Python `\x7b**a, **b\x7d`: start from `a`, then insert each entry of `b` in
order, so `b`'s value wins on any key collision. -/
def dictMerge (a b : Dict) : Dict :=
  b.foldl (fun acc p => dictInsert acc p.1 p.2) a

/-- `TELEMETRY_EVENT_SETTINGS` from the source module. -/
def TELEMETRY_EVENT_SETTINGS : Dict :=
  [("process_person_profile", PValue.bool true)]

/-- `BaseTelemetryEvent`: a name and a string-keyed properties dict. -/
structure BaseTelemetryEvent where
  name : String
  properties : Dict
  deriving DecidableEq, Repr

/-- `ProductTelemetry.UNKNOWN_USER_ID`. -/
def UNKNOWN_USER_ID : String := "UNKNOWN"

/-- The characters Python's `str.strip()` removes by default. -/
def pyIsSpace (c : Char) : Bool :=
  c = ' ' || c = '\t' || c = '\n' || c = '\r' ||
    c = Char.ofNat 11 || c = Char.ofNat 12

/-- Python `str.strip()`: drop leading and trailing whitespace. -/
def pyStrip (s : String) : String :=
  ⟨((s.data.dropWhile pyIsSpace).reverse.dropWhile pyIsSpace).reverse⟩

/-- Python `str.lower()` (ASCII case mapping, as used on the env values). -/
def pyLower (s : String) : String := ⟨s.data.map Char.toLower⟩

/-- Filesystem oracle for one identity-resolution attempt: the outcome of
`os.path.exists`, `os.makedirs`, the `open(...,"w")`/`write`, and the
`open(...,"r")`/`read` of `USER_ID_PATH`. -/
structure FS where
  existsResult : Res Unit Bool
  makedirsResult : Res Unit Unit
  writeResult : Res Unit Unit
  readResult : Res Unit String
  deriving DecidableEq, Repr

/-- The body of the `try` block in the `user_id` property: returns the
resolved identity, or the exception the `except` handler will catch. -/
def resolveUserIdTry (fs : FS) (newUuid : String) : Res Unit String :=
  match fs.existsResult with
  | Res.error e => Res.error e
  | Res.ok false =>
    match fs.makedirsResult with
    | Res.error e => Res.error e
    | Res.ok _ =>
      match fs.writeResult with
      | Res.error e => Res.error e
      | Res.ok _ => Res.ok newUuid
  | Res.ok true =>
    match fs.readResult with
    | Res.error e => Res.error e
    | Res.ok s => Res.ok (pyStrip s)

/-- Number of filesystem operations performed (attempted) along the
resolution path, for stating the no-further-file-I/O properties. -/
def resolveOps (fs : FS) : Nat :=
  match fs.existsResult with
  | Res.error _ => 1
  | Res.ok false =>
    match fs.makedirsResult with
    | Res.error _ => 2
    | Res.ok _ => 3
  | Res.ok true => 2

/-- Result of one evaluation of the `user_id` property: the returned string,
the new `_curr_user_id` cache, and how many filesystem operations ran. -/
structure UserIdCall where
  value : String
  cache : Option String
  ioCount : Nat
  deriving DecidableEq, Repr

/-- Python truthiness of `self._curr_user_id` (`None` and `""` are falsy). -/
def pyTruthy : Option String → Bool
  | none => false
  | some s => s != ""

/-- The `user_id` property: return the cached id if truthy, otherwise run the
`try` block; its `except` sets the cache to `UNKNOWN_USER_ID`. Every
resolution outcome is stored in `_curr_user_id`. -/
def userId (cached : Option String) (fs : FS) (newUuid : String) : UserIdCall :=
  match pyTruthy cached with
  | true => ⟨cached.getD "", cached, 0⟩
  | false =>
    match resolveUserIdTry fs newUuid with
    | Res.ok v => ⟨v, some v, resolveOps fs⟩
    | Res.error _ => ⟨UNKNOWN_USER_ID, some UNKNOWN_USER_ID, resolveOps fs⟩

/-- The document inserted into the MongoDB collection. -/
structure TelemetryRecord where
  user_id : String
  event_name : String
  properties : Dict
  timestamp : Nat
  deriving DecidableEq, Repr

/-- Log lines the recorder can emit. -/
inductive LogLine where
  | telemetryDisabledMsg
  | telemetryEnabledMsg
  | connectFailed (reason : String)
  | debugEvent (name : String) (props : Dict)
  | storedEvent (doc : TelemetryRecord)
  | storeFailed (name : String) (reason : String)
  deriving DecidableEq, Repr

/-- Recorder state: `_mongo_client` (`some ()` is a live handle),
`debug_logging`, and the `_curr_user_id` cache. -/
structure ProductTelemetry where
  mongo_client : Option Unit
  debug_logging : Bool
  curr_user_id : Option String
  deriving DecidableEq, Repr

/-- The environment variables `__init__` reads (`none` = unset). -/
structure Env where
  anonymized_telemetry : Option String
  browser_use_logging_level : Option String
  deriving DecidableEq, Repr

/-- `os.getenv(var, default)`. -/
def getenv (v : Option String) (dflt : String) : String := v.getD dflt

/-- `os.getenv("ANONYMIZED_TELEMETRY", "true").lower() == "false"`. -/
def telemetry_disabled (env : Env) : Bool :=
  pyLower (getenv env.anonymized_telemetry "true") == "false"

/-- `os.getenv("BROWSER_USE_LOGGING_LEVEL", "info").lower() == "debug"`. -/
def debugLoggingOf (env : Env) : Bool :=
  pyLower (getenv env.browser_use_logging_level "info") == "debug"

/-- `ProductTelemetry.__init__`: `conn` is the outcome of the attempt to build
the MongoClient/db/collection handles; its failure is caught, logged, and
leaves `_mongo_client = None`. Returns the state and the construction logs. -/
def initRecorder (env : Env) (conn : Res String Unit) :
    ProductTelemetry × List LogLine :=
  match telemetry_disabled env with
  | true => (⟨none, debugLoggingOf env, none⟩, [LogLine.telemetryDisabledMsg])
  | false =>
    match conn with
    | Res.ok _ =>
      (⟨some (), debugLoggingOf env, none⟩, [LogLine.telemetryEnabledMsg])
    | Res.error e =>
      (⟨none, debugLoggingOf env, none⟩,
        [LogLine.telemetryEnabledMsg, LogLine.connectFailed e])

/-- External effects of one `capture` call: the filesystem oracle, the
freshly generated `uuid4` string, the outcome of `insert_one` (covering
serialization and the remote write), and `uuid1().time`. -/
structure World where
  fs : FS
  newUuid : String
  insertResult : Res String Unit
  uuid1Time : Nat
  deriving DecidableEq, Repr

/-- Observable outcome of one `capture` call. -/
structure CaptureResult where
  state : ProductTelemetry
  written : List TelemetryRecord
  logs : List LogLine
  ioCount : Nat
  deriving DecidableEq, Repr

/-- The `doc` built in `_direct_capture`. -/
def buildDoc (uid : String) (ev : BaseTelemetryEvent) (t : Nat) : TelemetryRecord :=
  ⟨uid, ev.name, dictMerge ev.properties TELEMETRY_EVENT_SETTINGS, t⟩

/-- State, document and insert outcome of the `try` block of
`_direct_capture`: `self.user_id` runs first (mutating the cache), then
`insert_one` either succeeds or raises. -/
structure TryResult where
  state : ProductTelemetry
  doc : TelemetryRecord
  ioCount : Nat
  insertOutcome : Res String Unit
  deriving DecidableEq, Repr

/-- The `try` block of `_direct_capture`. -/
def directCaptureTry (st : ProductTelemetry) (ev : BaseTelemetryEvent)
    (w : World) : TryResult :=
  let u := userId st.curr_user_id w.fs w.newUuid
  ⟨⟨st.mongo_client, st.debug_logging, u.cache⟩,
    buildDoc u.value ev w.uuid1Time, u.ioCount, w.insertResult⟩

/-- `ProductTelemetry._direct_capture`: early return when disabled, else run
the `try` block; a raised insert failure is caught and logged with the event
name and reason. -/
def directCapture (st : ProductTelemetry) (ev : BaseTelemetryEvent)
    (w : World) : CaptureResult :=
  match st.mongo_client with
  | none => ⟨st, [], [], 0⟩
  | some _ =>
    let r := directCaptureTry st ev w
    match r.insertOutcome with
    | Res.ok _ =>
      ⟨r.state, [r.doc],
        match st.debug_logging with
        | true => [LogLine.storedEvent r.doc]
        | false => [],
        r.ioCount⟩
    | Res.error e => ⟨r.state, [], [LogLine.storeFailed ev.name e], r.ioCount⟩

/-- `ProductTelemetry.capture`: early return when disabled, optional debug
log line, then `_direct_capture`. -/
def capture (st : ProductTelemetry) (ev : BaseTelemetryEvent) (w : World) :
    CaptureResult :=
  match st.mongo_client with
  | none => ⟨st, [], [], 0⟩
  | some _ =>
    let pre :=
      match st.debug_logging with
      | true => [LogLine.debugEvent ev.name ev.properties]
      | false => []
    let r := directCapture st ev w
    ⟨r.state, r.written, pre ++ r.logs, r.ioCount⟩

/-- A sequence of `capture` calls threading the recorder state, accumulating
writes, logs and filesystem operations. -/
def captureMany (st : ProductTelemetry) :
    List (BaseTelemetryEvent × World) → CaptureResult
  | [] => ⟨st, [], [], 0⟩
  | (ev, w) :: rest =>
    let r := capture st ev w
    let rs := captureMany r.state rest
    ⟨rs.state, r.written ++ rs.written, r.logs ++ rs.logs, r.ioCount + rs.ioCount⟩

/-- Looking up a key just inserted returns the inserted value. -/
theorem dictLookup_insert_self (d : Dict) (k : String) (v : PValue) :
    dictLookup (dictInsert d k v) k = some v := by
  induction d with
  | nil => simp [dictInsert, dictLookup]
  | cons p rest ih =>
    obtain ⟨a, b⟩ := p
    by_cases hak : a = k
    · simp [dictInsert, hak, dictLookup]
    · simp [dictInsert, hak, dictLookup, ih]

/-- Merging the static settings into a dict is a single insert. -/
theorem dictMerge_settings (a : Dict) :
    dictMerge a TELEMETRY_EVENT_SETTINGS =
      dictInsert a "process_person_profile" (PValue.bool true) := rfl

/-- What `capture` writes: nothing when disabled or when the insert raises,
otherwise exactly the built document. -/
theorem capture_written_eq (st : ProductTelemetry) (ev : BaseTelemetryEvent)
    (w : World) :
    (capture st ev w).written =
      match st.mongo_client with
      | none => []
      | some _ =>
        match w.insertResult with
        | Res.ok _ =>
          [buildDoc (userId st.curr_user_id w.fs w.newUuid).value ev w.uuid1Time]
        | Res.error _ => [] := by
  unfold capture directCapture directCaptureTry
  cases st.mongo_client <;> cases w.insertResult <;> rfl

/-- A disabled recorder makes every sequence of `capture` calls a no-op. -/
theorem captureMany_disabled (st : ProductTelemetry) (h : st.mongo_client = none) :
    ∀ evws : List (BaseTelemetryEvent × World), captureMany st evws = ⟨st, [], [], 0⟩ := by
  intro evws
  induction evws with
  | nil => rfl
  | cons p rest ih =>
    obtain ⟨ev, w⟩ := p
    have hc : capture st ev w = ⟨st, [], [], 0⟩ := by
      unfold capture
      rw [h]
    simp [captureMany, hc, ih]

/-- With a truthy (non-empty) cached id, `user_id` returns it with no I/O. -/
theorem userId_of_truthy (s : String) (fs : FS) (newUuid : String) (h : s ≠ "") :
    userId (some s) fs newUuid = ⟨s, some s, 0⟩ := by
  unfold userId
  have ht : pyTruthy (some s) = true := by
    simp [pyTruthy, bne_iff_ne, h]
  rw [ht]
  rfl

/-- Every evaluation of `user_id` leaves the cache holding exactly the value
it returned. -/
theorem userId_cache_eq (cached : Option String) (fs : FS) (newUuid : String) :
    (userId cached fs newUuid).cache = some (userId cached fs newUuid).value := by
  unfold userId
  cases hc : pyTruthy cached
  · cases resolveUserIdTry fs newUuid <;> rfl
  · cases cached with
    | none => simp [pyTruthy] at hc
    | some s => rfl

/-- The resolved identity is non-empty as long as the fresh UUID is non-empty
and no pre-existing identity file has whitespace-only contents. -/
theorem userId_value_nonempty (cached : Option String) (fs : FS) (newUuid : String)
    (hu : newUuid ≠ "")
    (hr : ∀ s : String, fs.readResult = Res.ok s → pyStrip s ≠ "") :
    (userId cached fs newUuid).value ≠ "" := by
  unfold userId
  cases hc : pyTruthy cached
  · cases hres : resolveUserIdTry fs newUuid with
    | ok v =>
      obtain ⟨ex, mk, wr, rd⟩ := fs
      simp only []
      cases ex with
      | error e => simp [resolveUserIdTry] at hres
      | ok b =>
        cases b with
        | false =>
          cases mk with
          | error e => simp [resolveUserIdTry] at hres
          | ok u =>
            cases wr with
            | error e => simp [resolveUserIdTry] at hres
            | ok u2 =>
              simp [resolveUserIdTry] at hres
              simpa [hres.symm] using hu
        | true =>
          cases rd with
          | error e => simp [resolveUserIdTry] at hres
          | ok s =>
            simp [resolveUserIdTry] at hres
            have := hr s rfl
            simpa [hres.symm] using this
    | error e =>
      simp [UNKNOWN_USER_ID]
  · cases cached with
    | none => simp [pyTruthy] at hc
    | some s =>
      simp [pyTruthy] at hc
      simpa using hc

/-- C1: for every event and every failure raised during the transport write
path (the `try` block of `_direct_capture`, covering record building,
identity resolution, serialization and the insert), `capture` catches the
failure, logs it with the event name and failure reason, and returns
normally — `capture` is a total function into `CaptureResult` and never
propagates an exception: the failing call writes nothing and emits the
failure log line. -/
theorem capture_swallows_write_failure (st : ProductTelemetry)
    (ev : BaseTelemetryEvent) (w : World) (e : String)
    (hm : st.mongo_client = some ()) (he : w.insertResult = Res.error e) :
    (capture st ev w).written = [] ∧
    LogLine.storeFailed ev.name e ∈ (capture st ev w).logs := by
  have h1 : (capture st ev w).written = [] := by
    rw [capture_written_eq, hm, he]
  refine ⟨h1, ?_⟩
  unfold capture directCapture directCaptureTry
  simp [hm, he]

theorem capture_swallows_write_failure_witness :
    (capture ⟨some (), true, some "uid-1"⟩ ⟨"agent_run", [("a", PValue.int 1)]⟩
      ⟨⟨Res.ok true, Res.ok (), Res.ok (), Res.ok "uid-1"⟩, "fresh",
        Res.error "connection lost", 9⟩).written = [] ∧
    LogLine.storeFailed "agent_run" "connection lost" ∈
      (capture ⟨some (), true, some "uid-1"⟩ ⟨"agent_run", [("a", PValue.int 1)]⟩
        ⟨⟨Res.ok true, Res.ok (), Res.ok (), Res.ok "uid-1"⟩, "fresh",
          Res.error "connection lost", 9⟩).logs :=
  capture_swallows_write_failure _ _ _ _ rfl rfl

/-- C2: with no live transport handle (`_mongo_client = None`), every
sequence of `capture` calls is a no-op: no record is written, no log line is
emitted, no filesystem operation runs, and the recorder state (including the
identity cache) is unchanged. -/
theorem capture_disabled_is_noop (st : ProductTelemetry)
    (evws : List (BaseTelemetryEvent × World)) (h : st.mongo_client = none) :
    captureMany st evws = ⟨st, [], [], 0⟩ :=
  captureMany_disabled st h evws

theorem capture_disabled_is_noop_witness :
    captureMany ⟨none, false, none⟩
      [(⟨"a", []⟩, ⟨⟨Res.ok false, Res.ok (), Res.ok (), Res.ok ""⟩, "u",
          Res.ok (), 0⟩),
       (⟨"b", [("k", PValue.int 1)]⟩, ⟨⟨Res.ok true, Res.ok (), Res.ok (),
          Res.ok "z"⟩, "u2", Res.error "x", 1⟩)] =
      ⟨⟨none, false, none⟩, [], [], 0⟩ :=
  capture_disabled_is_noop _ _ rfl

/-- C3: the stored record's properties equal the merge of the event's
properties with the static telemetry settings, and for every key the static
settings bind, the merge holds the static setting's value (static settings
win the collision). -/
theorem capture_properties_merge (st : ProductTelemetry) (ev : BaseTelemetryEvent)
    (w : World) (hm : st.mongo_client = some ()) (hi : w.insertResult = Res.ok ()) :
    (capture st ev w).written.map TelemetryRecord.properties =
      [dictMerge ev.properties TELEMETRY_EVENT_SETTINGS] ∧
    ∀ k : String, ∀ v : PValue, dictLookup TELEMETRY_EVENT_SETTINGS k = some v →
      dictLookup (dictMerge ev.properties TELEMETRY_EVENT_SETTINGS) k = some v := by
  constructor
  · rw [capture_written_eq, hm, hi]
    rfl
  · intro k v hkv
    by_cases hpk : "process_person_profile" = k
    · subst hpk
      simp [TELEMETRY_EVENT_SETTINGS, dictLookup] at hkv
      rw [dictMerge_settings, ← hkv]
      exact dictLookup_insert_self _ _ _
    · simp [TELEMETRY_EVENT_SETTINGS, dictLookup, hpk] at hkv

theorem capture_properties_merge_witness :
    (capture ⟨some (), false, some "uid"⟩ ⟨"x", [("a", PValue.int 1)]⟩
      ⟨⟨Res.ok true, Res.ok (), Res.ok (), Res.ok "uid"⟩, "g", Res.ok (), 3⟩).written.map
        TelemetryRecord.properties =
      [dictMerge [("a", PValue.int 1)] TELEMETRY_EVENT_SETTINGS] ∧
    dictLookup (dictMerge [("a", PValue.int 1)] TELEMETRY_EVENT_SETTINGS)
      "process_person_profile" = some (PValue.bool true) :=
  ⟨(capture_properties_merge ⟨some (), false, some "uid"⟩ ⟨"x", [("a", PValue.int 1)]⟩
      ⟨⟨Res.ok true, Res.ok (), Res.ok (), Res.ok "uid"⟩, "g", Res.ok (), 3⟩ rfl rfl).1,
   (capture_properties_merge ⟨some (), false, some "uid"⟩ ⟨"x", [("a", PValue.int 1)]⟩
      ⟨⟨Res.ok true, Res.ok (), Res.ok (), Res.ok "uid"⟩, "g", Res.ok (), 3⟩ rfl rfl).2
      "process_person_profile" (PValue.bool true) rfl⟩

/-- C4 counterexample: on an enabled recorder with a working transport, a
pre-existing identity file whose contents trim to the empty string makes the
single written record carry an empty `user_id`, refuting the claimed
non-emptiness. -/
theorem capture_nonempty_user_id_cex :
    ((capture ⟨some (), false, none⟩ ⟨"x", [("a", PValue.int 1)]⟩
      ⟨⟨Res.ok true, Res.ok (), Res.ok (), Res.ok " "⟩, "u-1", Res.ok (), 7⟩).written.map
        TelemetryRecord.user_id) = [""] := by decide

/-- C4 (amended): on an enabled recorder with a working transport, one
`capture` call writes exactly one record with `event_name = event.name`,
properties equal to the merge of the event's properties with the static
settings, `user_id` equal to the resolved identity, and a timestamp field;
the `user_id` is non-empty provided the generated UUID is non-empty and any
pre-existing identity file's trimmed contents are non-empty. -/
theorem capture_one_record (st : ProductTelemetry) (ev : BaseTelemetryEvent)
    (w : World) (hm : st.mongo_client = some ()) (hi : w.insertResult = Res.ok ())
    (hu : w.newUuid ≠ "")
    (hr : ∀ s : String, w.fs.readResult = Res.ok s → pyStrip s ≠ "") :
    (capture st ev w).written =
      [⟨(userId st.curr_user_id w.fs w.newUuid).value, ev.name,
        dictMerge ev.properties TELEMETRY_EVENT_SETTINGS, w.uuid1Time⟩] ∧
    (userId st.curr_user_id w.fs w.newUuid).value ≠ "" := by
  refine ⟨?_, userId_value_nonempty _ _ _ hu hr⟩
  rw [capture_written_eq, hm, hi]
  rfl

theorem capture_one_record_witness :
    (capture ⟨some (), false, none⟩ ⟨"x", [("a", PValue.int 1)]⟩
      ⟨⟨Res.error (), Res.ok (), Res.ok (), Res.error ()⟩, "gen", Res.ok (), 5⟩).written =
      [⟨(userId none ⟨Res.error (), Res.ok (), Res.ok (), Res.error ()⟩ "gen").value, "x",
        dictMerge [("a", PValue.int 1)] TELEMETRY_EVENT_SETTINGS, 5⟩] ∧
    (userId none ⟨Res.error (), Res.ok (), Res.ok (), Res.error ()⟩ "gen").value ≠ "" :=
  capture_one_record ⟨some (), false, none⟩ ⟨"x", [("a", PValue.int 1)]⟩
    ⟨⟨Res.error (), Res.ok (), Res.ok (), Res.error ()⟩, "gen", Res.ok (), 5⟩
    rfl rfl (by decide) (fun s h => nomatch h)

/-- C5 counterexample: with the identity file absent and a failing file
write, the resolved identity is the `UNKNOWN` sentinel, not the freshly
generated value, refuting "a failed write still yields the generated
value". -/
theorem user_id_failed_write_cex :
    (userId none ⟨Res.ok false, Res.ok (), Res.error (), Res.ok ""⟩ "gen-uuid").value
        = UNKNOWN_USER_ID ∧
    (userId none ⟨Res.ok false, Res.ok (), Res.error (), Res.ok ""⟩ "gen-uuid").value
        ≠ "gen-uuid" := by decide

/-- C5 (amended): when the identity file does not exist, the freshly
generated identifier is used as the resolved identity only when both the
parent-directory creation and the file write succeed; if either fails, the
`except` handler makes the resolved identity the `UNKNOWN` sentinel. -/
theorem user_id_fresh_generation (cached : Option String) (fs : FS) (newUuid : String)
    (hc : pyTruthy cached = false) (he : fs.existsResult = Res.ok false) :
    (userId cached fs newUuid).value =
      match fs.makedirsResult, fs.writeResult with
      | Res.ok _, Res.ok _ => newUuid
      | Res.error _, _ => UNKNOWN_USER_ID
      | _, Res.error _ => UNKNOWN_USER_ID := by
  unfold userId resolveUserIdTry
  rw [hc, he]
  cases hmk : fs.makedirsResult <;> cases hwr : fs.writeResult <;> simp [hmk, hwr]

theorem user_id_fresh_generation_witness :
    (userId none ⟨Res.ok false, Res.ok (), Res.ok (), Res.ok ""⟩ "gen-1").value =
      match (⟨Res.ok false, Res.ok (), Res.ok (), Res.ok ""⟩ : FS).makedirsResult,
          (⟨Res.ok false, Res.ok (), Res.ok (), Res.ok ""⟩ : FS).writeResult with
      | Res.ok _, Res.ok _ => "gen-1"
      | Res.error _, _ => UNKNOWN_USER_ID
      | _, Res.error _ => UNKNOWN_USER_ID :=
  user_id_fresh_generation none ⟨Res.ok false, Res.ok (), Res.ok (), Res.ok ""⟩
    "gen-1" rfl rfl

/-- C6: when a filesystem error occurs anywhere in identity resolution (the
`try` block of `user_id` raises), the resolution is caught — `userId` is a
total function, never propagating — and resolves to the `UNKNOWN` sentinel;
a capture on an enabled recorder with a working transport still writes its
record, whose `user_id` is `UNKNOWN`. -/
theorem fs_error_unknown_user (st : ProductTelemetry) (ev : BaseTelemetryEvent)
    (w : World) (hc : pyTruthy st.curr_user_id = false)
    (hm : st.mongo_client = some ()) (hi : w.insertResult = Res.ok ())
    (herr : resolveUserIdTry w.fs w.newUuid = Res.error ()) :
    (userId st.curr_user_id w.fs w.newUuid).value = UNKNOWN_USER_ID ∧
    (capture st ev w).written.map TelemetryRecord.user_id = [UNKNOWN_USER_ID] := by
  have h1 : (userId st.curr_user_id w.fs w.newUuid).value = UNKNOWN_USER_ID := by
    unfold userId
    rw [hc, herr]
  refine ⟨h1, ?_⟩
  rw [capture_written_eq, hm, hi]
  simp [buildDoc, h1]

theorem fs_error_unknown_user_witness :
    (userId none (⟨Res.error (), Res.ok (), Res.ok (), Res.ok ""⟩ : FS) "g").value
        = UNKNOWN_USER_ID ∧
    (capture ⟨some (), false, none⟩ ⟨"ev", []⟩
      ⟨⟨Res.error (), Res.ok (), Res.ok (), Res.ok ""⟩, "g", Res.ok (), 2⟩).written.map
        TelemetryRecord.user_id = [UNKNOWN_USER_ID] :=
  fs_error_unknown_user ⟨some (), false, none⟩ ⟨"ev", []⟩
    ⟨⟨Res.error (), Res.ok (), Res.ok (), Res.ok ""⟩, "g", Res.ok (), 2⟩
    rfl rfl rfl rfl

/-- C7 counterexample: a first resolution against a pre-existing identity
file whose contents trim to the empty string caches `""`, and a later
resolution performs further file I/O instead of returning with none,
refuting "every later resolution returns the cached value with no further
file I/O". -/
theorem user_id_recache_cex :
    (userId none ⟨Res.ok true, Res.ok (), Res.ok (), Res.ok ""⟩ "g").cache = some "" ∧
    (userId (some "") ⟨Res.ok true, Res.ok (), Res.ok (), Res.ok ""⟩ "g").ioCount ≠ 0 := by
  decide

/-- C7 (amended): after a first resolution whose resolved value is non-empty
(which includes the `UNKNOWN` fallback outcome), every later resolution —
against any filesystem state and any fresh UUID — returns the same cached
value with no file I/O; an empty resolved value (possible only from a
pre-existing identity file with whitespace-only contents) is falsy, is not
treated as cached, and resolution repeats. -/
theorem user_id_cached_stable (cached : Option String) (fs : FS) (u : String)
    (fs2 : FS) (u2 : String) (h : (userId cached fs u).value ≠ "") :
    userId (userId cached fs u).cache fs2 u2 =
      ⟨(userId cached fs u).value, (userId cached fs u).cache, 0⟩ := by
  have hcache := userId_cache_eq cached fs u
  rw [hcache]
  exact userId_of_truthy _ fs2 u2 h

theorem user_id_cached_stable_witness :
    userId (userId none ⟨Res.error (), Res.ok (), Res.ok (), Res.ok ""⟩ "g1").cache
        ⟨Res.ok true, Res.ok (), Res.ok (), Res.ok "other"⟩ "g2" =
      ⟨(userId none ⟨Res.error (), Res.ok (), Res.ok (), Res.ok ""⟩ "g1").value,
       (userId none ⟨Res.error (), Res.ok (), Res.ok (), Res.ok ""⟩ "g1").cache, 0⟩ :=
  user_id_cached_stable none ⟨Res.error (), Res.ok (), Res.ok (), Res.ok ""⟩ "g1"
    ⟨Res.ok true, Res.ok (), Res.ok (), Res.ok "other"⟩ "g2" (by decide)

/-- C8: with telemetry enabled, a failing transport-connection attempt does
not make construction fail — `initRecorder` is total — it logs the
connection error, leaves no transport handle, and the recorder behaves as
disabled: every subsequent sequence of `capture` calls is a no-op. -/
theorem init_connect_failure_disables (env : Env) (e : String)
    (evws : List (BaseTelemetryEvent × World))
    (hd : telemetry_disabled env = false) :
    (initRecorder env (Res.error e)).1.mongo_client = none ∧
    LogLine.connectFailed e ∈ (initRecorder env (Res.error e)).2 ∧
    captureMany (initRecorder env (Res.error e)).1 evws =
      ⟨(initRecorder env (Res.error e)).1, [], [], 0⟩ := by
  have hst : (initRecorder env (Res.error e)).1.mongo_client = none := by
    unfold initRecorder
    rw [hd]
  refine ⟨hst, ?_, captureMany_disabled _ hst evws⟩
  unfold initRecorder
  rw [hd]
  simp

theorem init_connect_failure_disables_witness :
    (initRecorder ⟨none, none⟩ (Res.error "boom")).1.mongo_client = none ∧
    LogLine.connectFailed "boom" ∈ (initRecorder ⟨none, none⟩ (Res.error "boom")).2 ∧
    captureMany (initRecorder ⟨none, none⟩ (Res.error "boom")).1
      [(⟨"x", []⟩, ⟨⟨Res.ok false, Res.ok (), Res.ok (), Res.ok ""⟩, "u",
          Res.ok (), 0⟩)] =
      ⟨(initRecorder ⟨none, none⟩ (Res.error "boom")).1, [], [], 0⟩ :=
  init_connect_failure_disables ⟨none, none⟩ "boom"
    [(⟨"x", []⟩, ⟨⟨Res.ok false, Res.ok (), Res.ok (), Res.ok ""⟩, "u",
        Res.ok (), 0⟩)] rfl

/-- C9 counterexample: with the telemetry override unset (so not equal to
"false") but a failing connection attempt, the recorder is nevertheless
disabled, refuting "the recorder is disabled if and only if the telemetry
environment override equals 'false'". -/
theorem recorder_disabled_iff_env_cex :
    (initRecorder ⟨none, none⟩ (Res.error "down")).1.mongo_client = none ∧
    pyLower (getenv (⟨none, none⟩ : Env).anonymized_telemetry "true") ≠ "false" := by
  constructor
  · rfl
  · decide

/-- C9 (amended): provided the transport connection attempt succeeds when it
is made, the recorder is disabled if and only if the telemetry environment
override, lower-cased, equals "false"; when the variable is unset the
default "true" applies, and any other value leaves telemetry enabled. (A
failing connection attempt also disables the recorder.) -/
theorem recorder_disabled_iff_env_flag (env : Env) :
    (initRecorder env (Res.ok ())).1.mongo_client = none ↔
      pyLower (getenv env.anonymized_telemetry "true") = "false" := by
  unfold initRecorder telemetry_disabled
  cases h : pyLower (getenv env.anonymized_telemetry "true") == "false" with
  | false =>
    have h2 : ¬ pyLower (getenv env.anonymized_telemetry "true") = "false" := by
      simpa using h
    simp [h2]
  | true =>
    have h2 : pyLower (getenv env.anonymized_telemetry "true") = "false" := by
      simpa using h
    simp [h2]

/-- C10: every record written to the transport carries the key
`process_person_profile` bound to `True` in its properties, for every event,
including events whose own properties bind that key to a different value. -/
theorem written_has_process_person_profile (st : ProductTelemetry)
    (ev : BaseTelemetryEvent) (w : World) (doc : TelemetryRecord)
    (h : doc ∈ (capture st ev w).written) :
    dictLookup doc.properties "process_person_profile" = some (PValue.bool true) := by
  rw [capture_written_eq] at h
  cases hm : st.mongo_client with
  | none =>
    rw [hm] at h
    simp at h
  | some u =>
    rw [hm] at h
    cases hi : w.insertResult with
    | error e =>
      rw [hi] at h
      simp at h
    | ok a =>
      rw [hi] at h
      simp at h
      rw [h]
      have hb : (buildDoc (userId st.curr_user_id w.fs w.newUuid).value ev
          w.uuid1Time).properties =
          dictMerge ev.properties TELEMETRY_EVENT_SETTINGS := rfl
      rw [hb, dictMerge_settings]
      exact dictLookup_insert_self _ _ _

theorem written_has_process_person_profile_witness :
    dictLookup
      (TelemetryRecord.properties
        ⟨"uid", "e",
          dictMerge [("process_person_profile", PValue.bool false)]
            TELEMETRY_EVENT_SETTINGS, 5⟩)
      "process_person_profile" = some (PValue.bool true) :=
  written_has_process_person_profile ⟨some (), false, some "uid"⟩
    ⟨"e", [("process_person_profile", PValue.bool false)]⟩
    ⟨⟨Res.ok true, Res.ok (), Res.ok (), Res.ok "uid"⟩, "g", Res.ok (), 5⟩
    ⟨"uid", "e",
      dictMerge [("process_person_profile", PValue.bool false)]
        TELEMETRY_EVENT_SETTINGS, 5⟩
    (by decide)

end BrowserUse
